import Mathlib

/-!
Shallow embedding of the nerdbot AI gateway (src/convex/lib/ai.ts) and the
image resolver (fetchImageForModel in the Telegram action module), together
with theorems settling the frozen claims about routing, the bounded
tool-calling loop, token accounting, request bodies, environment
independence and image size checks.

Network effects are modelled by passing the upstream reply (or, for the
tool-call loop, a round-indexed oracle of replies) as an explicit argument;
every adapter returns the parsed result together with the list of upstream
requests it issued, so that claims about request counts, request bodies and
URLs are directly statable.
-/

namespace Nerdbot

/-! Data model (interfaces at the top of ai.ts). -/

inductive Role
  | user
  | assistant
deriving DecidableEq

def Role.toStr : Role → String
  | .user => "user"
  | .assistant => "assistant"

inductive ContentPart
  | text (t : String)
  | image (mediaType : String) (data : String)
deriving DecidableEq

inductive MessageContent
  | str (s : String)
  | parts (ps : List ContentPart)
deriving DecidableEq

structure ConversationMessage where
  role : Role
  content : MessageContent
deriving DecidableEq

structure AIResponse where
  text : String
  inputTokens : Option Nat := none
  outputTokens : Option Nat := none
  webSearchQueries : Option (List String) := none
deriving DecidableEq

inductive ThinkingMode
  | disabled
  | enabled
  | auto
deriving DecidableEq

def ThinkingMode.toStr : ThinkingMode → String
  | .disabled => "disabled"
  | .enabled => "enabled"
  | .auto => "auto"

structure GenerateResponseOptions where
  webSearch : Option Bool := none
  thinking : Option ThinkingMode := none
deriving DecidableEq

/-! Upstream response shapes (ClaudeAPIResponse, OpenAIAPIResponse,
ResponsesAPIResponse interfaces in ai.ts). Optional JSON fields are
modelled as Option. -/

structure ClaudeUsage where
  input_tokens : Option Nat := none
  output_tokens : Option Nat := none
deriving DecidableEq

structure ClaudeContentBlock where
  text : String
deriving DecidableEq

structure ClaudeAPIResponse where
  content : List ClaudeContentBlock
  usage : Option ClaudeUsage := none
deriving DecidableEq

structure OpenAIToolCallFunction where
  name : String
  arguments : String
deriving DecidableEq

structure OpenAIToolCall where
  id : String
  function : OpenAIToolCallFunction
deriving DecidableEq

structure OpenAIUsage where
  prompt_tokens : Option Nat := none
  completion_tokens : Option Nat := none
deriving DecidableEq

structure OpenAIChoiceMessage where
  content : Option String
  tool_calls : Option (List OpenAIToolCall) := none
deriving DecidableEq

structure OpenAIChoice where
  finish_reason : String
  message : OpenAIChoiceMessage
deriving DecidableEq

structure OpenAIAPIResponse where
  choices : List OpenAIChoice
  usage : Option OpenAIUsage := none
deriving DecidableEq

inductive ResponsesAPIOutput
  | message (content : List String)
  | webSearchCall
deriving DecidableEq

structure ResponsesAPIResponse where
  id : String
  output : List ResponsesAPIOutput
  usage : Option OpenAIUsage := none
deriving DecidableEq

/-! A minimal JSON value type; request bodies are embedded as Json values
(mirroring what JSON.stringify serializes, with undefined fields dropped
and null kept). -/

inductive Json
  | null
  | bool (b : Bool)
  | num (n : Nat)
  | str (s : String)
  | arr (elems : List Json)
  | obj (fields : List (String × Json))

def Json.lookupFields (key : String) : List (String × Json) → Option Json
  | [] => none
  | (k, v) :: rest => if k = key then some v else Json.lookupFields key rest

def Json.lookup (j : Json) (key : String) : Option Json :=
  match j with
  | .obj fields => Json.lookupFields key fields
  | _ => none

structure Request where
  url : String
  headers : List (String × String)
  body : Json

/-! Outcome of one fetch: either a non-ok HTTP status with its body text, or
the parsed JSON payload. -/

inductive FetchOutcome (α : Type)
  | httpError (status : Nat) (body : String)
  | ok (data : α)

inductive AIError
  | httpError (api : String) (status : Nat) (body : String)
  | noEndpoint (provider : String)
  | noResponsesEndpoint (provider : String)
  | noChoices
  | loopExceeded
  | unknownProvider (provider : String)
deriving DecidableEq

/-! Content conversion helpers (toOpenAIContent, toTextContent, hasImage). -/

inductive OpenAIContentPart
  | text (t : String)
  | image_url (url : String)
deriving DecidableEq

inductive OpenAIContent
  | str (s : String)
  | parts (ps : List OpenAIContentPart)
deriving DecidableEq

def toOpenAIContent : MessageContent → OpenAIContent
  | .str s => .str s
  | .parts ps => .parts (ps.map fun part =>
      match part with
      | .text t => .text t
      | .image mediaType data =>
          .image_url ("data:" ++ mediaType ++ ";base64," ++ data))

def toTextContent : MessageContent → String
  | .str s => s
  | .parts ps => String.intercalate " " (ps.map fun part =>
      match part with
      | .text t => t
      | .image _ _ => "[image]")

def hasImage (messages : List ConversationMessage) : Bool :=
  messages.any fun message =>
    match message.content with
    | .str _ => false
    | .parts ps => ps.any fun part =>
        match part with
        | .image _ _ => true
        | .text _ => false

/-! Request message shape for the OpenAI-compatible APIs
(OpenAIRequestMessage in ai.ts); content none models JSON null,
the other three Option fields model absent (undefined) properties. -/

structure OpenAIRequestMessage where
  role : String
  content : Option OpenAIContent
  tool_calls : Option (List OpenAIToolCall) := none
  tool_call_id : Option String := none
  name : Option String := none
deriving DecidableEq

def OpenAIContentPart.toJson : OpenAIContentPart → Json
  | .text t => .obj [("type", .str "text"), ("text", .str t)]
  | .image_url url =>
      .obj [("type", .str "image_url"), ("image_url", .obj [("url", .str url)])]

def OpenAIContent.toJson : OpenAIContent → Json
  | .str s => .str s
  | .parts ps => .arr (ps.map OpenAIContentPart.toJson)

def OpenAIToolCall.toJson (tc : OpenAIToolCall) : Json :=
  .obj [("id", .str tc.id), ("type", .str "function"),
        ("function", .obj [("name", .str tc.function.name),
                           ("arguments", .str tc.function.arguments)])]

def OpenAIRequestMessage.toJson (m : OpenAIRequestMessage) : Json :=
  .obj ([("role", .str m.role),
         ("content", match m.content with
                     | some c => c.toJson
                     | none => .null)]
    ++ (match m.tool_calls with
        | some tcs => [("tool_calls", Json.arr (tcs.map OpenAIToolCall.toJson))]
        | none => [])
    ++ (match m.tool_call_id with
        | some tid => [("tool_call_id", Json.str tid)]
        | none => [])
    ++ (match m.name with
        | some n => [("name", Json.str n)]
        | none => []))

/-! Base-URL handling (DEFAULT_OPENAI_BASE_URL, normalizeBaseUrl,
getOpenAIBaseUrl, joinUrl); the OPENAI_BASE_URL environment variable is
threaded explicitly as an Option String argument. -/

def DEFAULT_OPENAI_BASE_URL : String := "https://api.openai.com/v1"

/-- Whitespace trim from both ends (the source's value.trim()), written over
the character list so that it evaluates by reduction. -/
def trimString (s : String) : String :=
  String.mk (((s.data.dropWhile Char.isWhitespace).reverse.dropWhile
    Char.isWhitespace).reverse)

def normalizeBaseUrl (value : String) : String :=
  String.mk ((value.data.reverse.dropWhile fun c => c = '/').reverse)

def getOpenAIBaseUrl (env : Option String) : String :=
  match env with
  | none => DEFAULT_OPENAI_BASE_URL
  | some value =>
      let trimmed := trimString value
      if trimmed = "" then DEFAULT_OPENAI_BASE_URL
      else normalizeBaseUrl trimmed

def joinUrl (baseUrl path : String) : String :=
  let normalizedBase := normalizeBaseUrl baseUrl
  let normalizedPath := String.mk (path.data.dropWhile fun c => c = '/')
  normalizedBase ++ "/" ++ normalizedPath

def getOpenAIChatCompletionsUrl (env : Option String) : String :=
  joinUrl (getOpenAIBaseUrl env) "chat/completions"

def getOpenAIResponsesUrl (env : Option String) : String :=
  joinUrl (getOpenAIBaseUrl env) "responses"

def OPENAI_COMPATIBLE_ENDPOINTS : String → Option String
  | "moonshot" => some "https://api.moonshot.ai/v1/chat/completions"
  | "grok" => some "https://api.x.ai/v1/chat/completions"
  | _ => none

def RESPONSES_API_ENDPOINTS : String → Option String
  | "grok" => some "https://api.x.ai/v1/responses"
  | _ => none

/-! callClaude: the message-API adapter. -/

def contentForClaude : MessageContent → Json
  | .str s => .str s
  | .parts ps => .arr (ps.map fun part =>
      match part with
      | .text t => Json.obj [("type", .str "text"), ("text", .str t)]
      | .image mediaType data =>
          Json.obj [("type", .str "image"),
                    ("source", .obj [("type", .str "base64"),
                                     ("media_type", .str mediaType),
                                     ("data", .str data)])])

def callClaudeRequest (apiKey model systemPrompt : String)
    (messages : List ConversationMessage) : Request where
  url := "https://api.anthropic.com/v1/messages"
  headers := [("Content-Type", "application/json"), ("x-api-key", apiKey),
              ("anthropic-version", "2023-06-01")]
  body := .obj [("model", .str model), ("max_tokens", .num 1024),
                ("system", .str systemPrompt),
                ("messages", .arr (messages.map fun m =>
                  Json.obj [("role", .str m.role.toStr),
                            ("content", contentForClaude m.content)]))]

def callClaude (apiKey model systemPrompt : String)
    (messages : List ConversationMessage)
    (upstream : FetchOutcome ClaudeAPIResponse) :
    Except AIError AIResponse × List Request :=
  let request := callClaudeRequest apiKey model systemPrompt messages
  match upstream with
  | .httpError status body => (.error (.httpError "Claude" status body), [request])
  | .ok data =>
      (.ok { text := ((data.content.head?).map ClaudeContentBlock.text).getD ""
             inputTokens := data.usage.bind ClaudeUsage.input_tokens
             outputTokens := data.usage.bind ClaudeUsage.output_tokens },
       [request])

/-! callOpenAICompatible: the plain chat-completions adapter. -/

def chatPayload (model systemPrompt : String)
    (messages : List ConversationMessage) (provider : String)
    (thinking : Option ThinkingMode) : Json :=
  .obj ([("model", .str model), ("max_tokens", .num 1024),
         ("messages", .arr
           ((({ role := "system",
                content := some (.str systemPrompt) } : OpenAIRequestMessage)
             :: messages.map fun m =>
                  ({ role := m.role.toStr,
                     content := some (toOpenAIContent m.content) } :
                     OpenAIRequestMessage)).map OpenAIRequestMessage.toJson))]
    ++ (match provider, thinking with
        | "moonshot", some t =>
            [("thinking", Json.obj [("type", .str t.toStr)])]
        | _, _ => []))

def callOpenAICompatible (provider apiKey model systemPrompt : String)
    (messages : List ConversationMessage) (thinking : Option ThinkingMode)
    (env : Option String) (upstream : FetchOutcome OpenAIAPIResponse) :
    Except AIError AIResponse × List Request :=
  let urlOpt : Option String :=
    if provider = "openai" then some (getOpenAIChatCompletionsUrl env)
    else OPENAI_COMPATIBLE_ENDPOINTS provider
  match urlOpt with
  | none => (.error (.noEndpoint provider), [])
  | some url =>
      let request : Request :=
        { url
          headers := [("Content-Type", "application/json"),
                      ("Authorization", "Bearer " ++ apiKey)]
          body := chatPayload model systemPrompt messages provider thinking }
      match upstream with
      | .httpError status body =>
          (.error (.httpError provider status body), [request])
      | .ok data =>
          (.ok { text := (data.choices.head?.bind fun c => c.message.content).getD ""
                 inputTokens := data.usage.bind OpenAIUsage.prompt_tokens
                 outputTokens := data.usage.bind OpenAIUsage.completion_tokens },
           [request])

/-! callMoonshotWithSearch: the bounded tool-calling loop. The upstream is a
round-indexed oracle; the loop is structural recursion on the remaining
iteration budget (MAX_TOOL_ITERATIONS minus rounds already run). -/

def MAX_TOOL_ITERATIONS : Nat := 5

def moonshotTools : Json :=
  .arr [.obj [("type", .str "builtin_function"),
              ("function", .obj [("name", .str "$web_search")])]]

def moonshotRoundRequest (url apiKey model : String)
    (thinking : Option ThinkingMode)
    (apiMessages : List OpenAIRequestMessage) : Request where
  url := url
  headers := [("Content-Type", "application/json"),
              ("Authorization", "Bearer " ++ apiKey)]
  body := .obj ([("model", .str model), ("max_tokens", .num 1024),
                 ("messages", .arr (apiMessages.map OpenAIRequestMessage.toJson)),
                 ("tools", moonshotTools)]
    ++ (match thinking with
        | some t => [("thinking", Json.obj [("type", .str t.toStr)])]
        | none => []))

structure MoonshotLoopState where
  apiMessages : List OpenAIRequestMessage
  totalInputTokens : Nat
  totalOutputTokens : Nat
  searchQueries : List String

def initialApiMessages (systemPrompt : String)
    (messages : List ConversationMessage) : List OpenAIRequestMessage :=
  { role := "system", content := some (.str systemPrompt) }
    :: messages.map fun m =>
        { role := m.role.toStr, content := some (toOpenAIContent m.content) }

def toolResultMessages (toolCalls : List OpenAIToolCall) :
    List OpenAIRequestMessage :=
  toolCalls.map fun tc =>
    { role := "tool", content := some (.str tc.function.arguments),
      tool_call_id := some tc.id, name := some tc.function.name }

def moonshotLoop (url apiKey model : String) (thinking : Option ThinkingMode)
    (oracle : Nat → FetchOutcome OpenAIAPIResponse) :
    Nat → Nat → MoonshotLoopState → Except AIError AIResponse × List Request
  | 0, _, _ => (.error .loopExceeded, [])
  | fuel + 1, i, st =>
      let request := moonshotRoundRequest url apiKey model thinking st.apiMessages
      match oracle i with
      | .httpError status body =>
          (.error (.httpError "moonshot" status body), [request])
      | .ok data =>
          let st :=
            { st with
              totalInputTokens := st.totalInputTokens
                + ((data.usage.bind OpenAIUsage.prompt_tokens).getD 0)
              totalOutputTokens := st.totalOutputTokens
                + ((data.usage.bind OpenAIUsage.completion_tokens).getD 0) }
          match data.choices.head? with
          | none => (.error .noChoices, [request])
          | some choice =>
              if choice.finish_reason = "stop" then
                (.ok { text := choice.message.content.getD ""
                       inputTokens := some st.totalInputTokens
                       outputTokens := some st.totalOutputTokens
                       webSearchQueries :=
                         if st.searchQueries.length > 0 then
                           some st.searchQueries
                         else none },
                 [request])
              else
                match choice.message.tool_calls,
                      choice.finish_reason == "tool_calls" with
                | some toolCalls, true =>
                    let st' :=
                      { st with
                        searchQueries := st.searchQueries
                          ++ toolCalls.map fun tc => tc.function.arguments
                        apiMessages := st.apiMessages
                          ++ [{ role := "assistant",
                                content := choice.message.content.map OpenAIContent.str,
                                tool_calls := some toolCalls }]
                          ++ toolResultMessages toolCalls }
                    let next := moonshotLoop url apiKey model thinking oracle fuel (i + 1) st'
                    (next.1, request :: next.2)
                | _, _ =>
                    (.ok { text := choice.message.content.getD ""
                           inputTokens := some st.totalInputTokens
                           outputTokens := some st.totalOutputTokens
                           webSearchQueries :=
                             if st.searchQueries.length > 0 then
                               some st.searchQueries
                             else none },
                     [request])

def callMoonshotWithSearch (apiKey model systemPrompt : String)
    (messages : List ConversationMessage) (thinking : Option ThinkingMode)
    (oracle : Nat → FetchOutcome OpenAIAPIResponse) :
    Except AIError AIResponse × List Request :=
  match OPENAI_COMPATIBLE_ENDPOINTS "moonshot" with
  | none => (.error (.noEndpoint "moonshot"), [])
  | some url =>
      moonshotLoop url apiKey model thinking oracle MAX_TOOL_ITERATIONS 0
        { apiMessages := initialApiMessages systemPrompt messages
          totalInputTokens := 0
          totalOutputTokens := 0
          searchQueries := [] }

/-! callResponsesAPIWithSearch: the responses-API adapter with the
server-side web_search tool. Note its request body carries no max_tokens. -/

def responsesPayload (model systemPrompt : String)
    (messages : List ConversationMessage) : Json :=
  .obj [("model", .str model),
        ("input", .arr
          (Json.obj [("role", .str "system"), ("content", .str systemPrompt)]
            :: messages.map fun m =>
                Json.obj [("role", .str m.role.toStr),
                          ("content", .str (toTextContent m.content))])),
        ("tools", .arr [.obj [("type", .str "web_search")]]),
        ("store", .bool false)]

def ResponsesAPIOutput.isMessage : ResponsesAPIOutput → Bool
  | .message _ => true
  | .webSearchCall => false

def ResponsesAPIOutput.isWebSearchCall : ResponsesAPIOutput → Bool
  | .message _ => false
  | .webSearchCall => true

def callResponsesAPIWithSearch (provider apiKey model systemPrompt : String)
    (messages : List ConversationMessage) (env : Option String)
    (upstream : FetchOutcome ResponsesAPIResponse) :
    Except AIError AIResponse × List Request :=
  let urlOpt : Option String :=
    if provider = "openai" then some (getOpenAIResponsesUrl env)
    else RESPONSES_API_ENDPOINTS provider
  match urlOpt with
  | none => (.error (.noResponsesEndpoint provider), [])
  | some url =>
      let request : Request :=
        { url
          headers := [("Content-Type", "application/json"),
                      ("Authorization", "Bearer " ++ apiKey)]
          body := responsesPayload model systemPrompt messages }
      match upstream with
      | .httpError status body =>
          (.error (.httpError provider status body), [request])
      | .ok data =>
          let messageOutput := data.output.find? ResponsesAPIOutput.isMessage
          let text := (messageOutput.bind fun item =>
            match item with
            | .message content => content.head?
            | .webSearchCall => none).getD ""
          let searchCalls := data.output.filter ResponsesAPIOutput.isWebSearchCall
          (.ok { text
                 inputTokens := data.usage.bind OpenAIUsage.prompt_tokens
                 outputTokens := data.usage.bind OpenAIUsage.completion_tokens
                 webSearchQueries :=
                   if searchCalls.length > 0 then
                     some ["web_search (" ++ toString searchCalls.length
                             ++ " call(s))"]
                   else none },
           [request])

/-! generateResponse: the gateway facade. The four oracle fields stand for
the network replies each of the four paths would observe. -/

structure Oracles where
  claude : FetchOutcome ClaudeAPIResponse
  chat : FetchOutcome OpenAIAPIResponse
  moonshotSearch : Nat → FetchOutcome OpenAIAPIResponse
  responses : FetchOutcome ResponsesAPIResponse

def allowWebSearch (options : Option GenerateResponseOptions)
    (messages : List ConversationMessage) : Bool :=
  ((options.bind GenerateResponseOptions.webSearch).getD false)
    && !hasImage messages

def generateResponse (provider apiKey model systemPrompt : String)
    (messages : List ConversationMessage)
    (options : Option GenerateResponseOptions)
    (env : Option String) (oracles : Oracles) :
    Except AIError AIResponse × List Request :=
  let allow := allowWebSearch options messages
  match provider with
  | "claude" => callClaude apiKey model systemPrompt messages oracles.claude
  | "moonshot" =>
      if allow then
        callMoonshotWithSearch apiKey model systemPrompt messages
          (options.bind GenerateResponseOptions.thinking) oracles.moonshotSearch
      else
        callOpenAICompatible provider apiKey model systemPrompt messages
          (options.bind GenerateResponseOptions.thinking) env oracles.chat
  | "grok" =>
      if allow then
        callResponsesAPIWithSearch provider apiKey model systemPrompt messages
          env oracles.responses
      else
        callOpenAICompatible provider apiKey model systemPrompt messages
          (options.bind GenerateResponseOptions.thinking) env oracles.chat
  | "openai" =>
      if allow then
        callResponsesAPIWithSearch provider apiKey model systemPrompt messages
          env oracles.responses
      else
        callOpenAICompatible provider apiKey model systemPrompt messages
          (options.bind GenerateResponseOptions.thinking) env oracles.chat
  | _ => (.error (.unknownProvider provider), [])

/-! Image resolver (fetchImageForModel and its helpers in the Telegram
processMessage action module). The two Telegram calls (getFile,
downloadTelegramFile) are modelled by passing their successful results as
arguments; the returned Nat counts how many of those network calls the
function performs before returning. -/

def MAX_IMAGE_BYTES : Nat := 5 * 1024 * 1024

structure ImageAttachment where
  fileId : String
  mimeType : Option String := none
  fileSize : Option Nat := none
deriving DecidableEq

structure TelegramFileInfo where
  file_path : Option String := none
  file_size : Option Nat := none
deriving DecidableEq

structure TelegramDownload where
  bytes : List Nat
  contentType : Option String := none
deriving DecidableEq

structure ImagePayload where
  mediaType : String
  data : String
deriving DecidableEq

def base64Char (n : Nat) : Char :=
  ("ABCDEFGHIJKLMNOPQRSTUVWXYZabcdefghijklmnopqrstuvwxyz0123456789+/".data).getD n 'A'

def toBase64 : List Nat → String
  | [] => ""
  | [b1] =>
      let n := (b1 % 256) * 65536
      String.mk [base64Char (n / 262144), base64Char (n / 4096 % 64)] ++ "=="
  | [b1, b2] =>
      let n := (b1 % 256) * 65536 + (b2 % 256) * 256
      String.mk [base64Char (n / 262144), base64Char (n / 4096 % 64),
                 base64Char (n / 64 % 64)] ++ "="
  | b1 :: b2 :: b3 :: rest =>
      let n := (b1 % 256) * 65536 + (b2 % 256) * 256 + b3 % 256
      String.mk [base64Char (n / 262144), base64Char (n / 4096 % 64),
                 base64Char (n / 64 % 64), base64Char (n % 64)]
        ++ toBase64 rest

/-- Truthiness-faithful reading of the source condition
`size && size > MAX_IMAGE_BYTES` on an optional numeric field: an absent
size or a zero size is falsy, so the check only fires on a present,
non-zero size above the ceiling. -/
def sizeExceedsLimit (size : Option Nat) : Bool :=
  match size with
  | some n => n != 0 && n > MAX_IMAGE_BYTES
  | none => false

def fetchImageForModel (image : ImageAttachment)
    (fileInfo : TelegramFileInfo) (download : TelegramDownload) :
    Except String ImagePayload × Nat :=
  if sizeExceedsLimit image.fileSize then
    (.error "IMAGE_TOO_LARGE", 0)
  else
    match fileInfo.file_path with
    | none => (.error "IMAGE_FILE_PATH_MISSING", 1)
    | some _ =>
        if sizeExceedsLimit fileInfo.file_size then
          (.error "IMAGE_TOO_LARGE", 1)
        else if download.bytes.length > MAX_IMAGE_BYTES then
          (.error "IMAGE_TOO_LARGE", 2)
        else
          (.ok { mediaType :=
                   ((image.mimeType).orElse fun _ => download.contentType).getD
                     "image/jpeg"
                 data := toBase64 download.bytes },
           2)

/-! Observables over results and over tool-loop oracles, used to state the
claims. -/

def okText (r : Except AIError AIResponse × List Request) : Option String :=
  match r.1 with
  | .ok a => some a.text
  | .error _ => none

def okTokens (r : Except AIError AIResponse × List Request) :
    Option (Option Nat × Option Nat) :=
  match r.1 with
  | .ok a => some (a.inputTokens, a.outputTokens)
  | .error _ => none

def okQueries (r : Except AIError AIResponse × List Request) :
    Option (Option (List String)) :=
  match r.1 with
  | .ok a => some a.webSearchQueries
  | .error _ => none

def roundOk (oracle : Nat → FetchOutcome OpenAIAPIResponse) (i : Nat) :
    Option OpenAIAPIResponse :=
  match oracle i with
  | .ok d => some d
  | .httpError _ _ => none

def choiceAt (oracle : Nat → FetchOutcome OpenAIAPIResponse) (i : Nat) :
    Option OpenAIChoice :=
  (roundOk oracle i).bind fun d => d.choices.head?

/-- Round i lets the tool loop continue: the reply parsed, had a first
choice with finish_reason "tool_calls" and a present tool_calls list. -/
def continuesAt (oracle : Nat → FetchOutcome OpenAIAPIResponse) (i : Nat) :
    Bool :=
  match choiceAt oracle i with
  | some c => c.finish_reason == "tool_calls" && c.message.tool_calls.isSome
  | none => false

/-- Round i terminates the tool loop successfully with finish_reason
"stop". -/
def stopsAt (oracle : Nat → FetchOutcome OpenAIAPIResponse) (i : Nat) :
    Bool :=
  match choiceAt oracle i with
  | some c => c.finish_reason == "stop"
  | none => false

def promptTokensAt (oracle : Nat → FetchOutcome OpenAIAPIResponse) (i : Nat) :
    Nat :=
  match roundOk oracle i with
  | some d => (d.usage.bind OpenAIUsage.prompt_tokens).getD 0
  | none => 0

def completionTokensAt (oracle : Nat → FetchOutcome OpenAIAPIResponse)
    (i : Nat) : Nat :=
  match roundOk oracle i with
  | some d => (d.usage.bind OpenAIUsage.completion_tokens).getD 0
  | none => 0

/-- Raw tool-call argument strings recorded at round i (empty unless the
round continues the loop). -/
def toolArgsAt (oracle : Nat → FetchOutcome OpenAIAPIResponse) (i : Nat) :
    List String :=
  match choiceAt oracle i with
  | some c =>
      match c.message.tool_calls, c.finish_reason == "tool_calls" with
      | some tcs, true => tcs.map fun tc => tc.function.arguments
      | _, _ => []
  | none => []

def textAt (oracle : Nat → FetchOutcome OpenAIAPIResponse) (i : Nat) :
    String :=
  ((choiceAt oracle i).bind fun c => c.message.content).getD ""

def sumPromptTokens (oracle : Nat → FetchOutcome OpenAIAPIResponse)
    (i count : Nat) : Nat :=
  ((List.range count).map fun j => promptTokensAt oracle (i + j)).sum

def sumCompletionTokens (oracle : Nat → FetchOutcome OpenAIAPIResponse)
    (i count : Nat) : Nat :=
  ((List.range count).map fun j => completionTokensAt oracle (i + j)).sum

def argsConcat (oracle : Nat → FetchOutcome OpenAIAPIResponse)
    (i count : Nat) : List String :=
  (((List.range count).map fun j => toolArgsAt oracle (i + j))).flatten

/-- The request carries a max_tokens body field with value 1024. -/
def hasMaxTokens1024 (r : Request) : Bool :=
  match r.body.lookup "max_tokens" with
  | some (Json.num n) => n == 1024
  | _ => false

/-- Each list in the chain extends the previous one (starting from base) by
appending entries at the end only. -/
def growsFrom (base : List OpenAIRequestMessage) :
    List (List OpenAIRequestMessage) → Prop
  | [] => True
  | m :: rest => (∃ t, m = base ++ t) ∧ growsFrom m rest

/-! Helper lemmas about the tool loop. -/

lemma continuesAt_elim {oracle : Nat → FetchOutcome OpenAIAPIResponse}
    {i : Nat} (h : continuesAt oracle i = true) :
    ∃ d c tcs, oracle i = .ok d ∧ d.choices.head? = some c ∧
      c.finish_reason = "tool_calls" ∧ c.message.tool_calls = some tcs := by
  unfold continuesAt choiceAt roundOk at h
  cases ho : oracle i with
  | httpError s b => rw [ho] at h; simp at h
  | ok d =>
    rw [ho] at h
    cases hc : d.choices.head? with
    | none => simp [hc] at h
    | some c =>
      simp only [Option.some_bind, hc] at h
      rw [Bool.and_eq_true] at h
      have hf : c.finish_reason = "tool_calls" := eq_of_beq h.1
      obtain ⟨tcs, ht⟩ := Option.isSome_iff_exists.mp h.2
      exact ⟨d, c, tcs, rfl, hc, hf, ht⟩

lemma stopsAt_elim {oracle : Nat → FetchOutcome OpenAIAPIResponse}
    {i : Nat} (h : stopsAt oracle i = true) :
    ∃ d c, oracle i = .ok d ∧ d.choices.head? = some c ∧
      c.finish_reason = "stop" := by
  unfold stopsAt choiceAt roundOk at h
  cases ho : oracle i with
  | httpError s b => rw [ho] at h; simp at h
  | ok d =>
    rw [ho] at h
    cases hc : d.choices.head? with
    | none => simp [hc] at h
    | some c =>
      simp only [Option.some_bind, hc] at h
      exact ⟨d, c, rfl, hc, eq_of_beq h⟩

lemma moonshotLoop_length_le (url apiKey model : String)
    (thinking : Option ThinkingMode)
    (oracle : Nat → FetchOutcome OpenAIAPIResponse) :
    ∀ fuel i st,
      ((moonshotLoop url apiKey model thinking oracle fuel i st).2).length
        ≤ fuel := by
  intro fuel
  induction fuel with
  | zero => intro i st; simp [moonshotLoop]
  | succ f ih =>
    intro i st
    simp only [moonshotLoop]
    cases ho : oracle i with
    | httpError s b => simp [ho]
    | ok d =>
      cases hc : d.choices.head? with
      | none => simp [ho, hc]
      | some c =>
        by_cases hs : c.finish_reason = "stop"
        · simp [ho, hc, hs]
        · cases ht : c.message.tool_calls with
          | none => simp [ho, hc, if_neg hs, ht]
          | some tcs =>
            cases hf : c.finish_reason == "tool_calls" with
            | false => simp [ho, hc, if_neg hs, ht, hf]
            | true =>
              simp only [ho, hc, if_neg hs, ht, hf, List.length_cons]
              exact Nat.succ_le_succ (ih _ _)

lemma moonshotLoop_all_continue (url apiKey model : String)
    (thinking : Option ThinkingMode)
    (oracle : Nat → FetchOutcome OpenAIAPIResponse) :
    ∀ fuel i st, (∀ j, j < fuel → continuesAt oracle (i + j) = true) →
      (moonshotLoop url apiKey model thinking oracle fuel i st).1
          = .error .loopExceeded
        ∧ ((moonshotLoop url apiKey model thinking oracle fuel i st).2).length
          = fuel := by
  intro fuel
  induction fuel with
  | zero => intro i st _; simp [moonshotLoop]
  | succ f ih =>
    intro i st h
    have h0 : continuesAt oracle i = true := by
      have := h 0 (Nat.succ_pos f); simpa using this
    obtain ⟨d, c, tcs, ho, hc, hf, ht⟩ := continuesAt_elim h0
    have hs : ¬c.finish_reason = "stop" := by rw [hf]; decide
    have hb : (c.finish_reason == "tool_calls") = true := by
      rw [hf]; decide
    have hrec := ih (i + 1) ?st ?hyp
    case hyp =>
      intro j hj
      have := h (j + 1) (Nat.succ_lt_succ hj)
      rwa [show i + (j + 1) = i + 1 + j by omega] at this
    case st => exact
      { apiMessages := st.apiMessages
          ++ [{ role := "assistant",
                content := c.message.content.map OpenAIContent.str,
                tool_calls := some tcs }]
          ++ toolResultMessages tcs
        totalInputTokens := st.totalInputTokens
          + ((d.usage.bind OpenAIUsage.prompt_tokens).getD 0)
        totalOutputTokens := st.totalOutputTokens
          + ((d.usage.bind OpenAIUsage.completion_tokens).getD 0)
        searchQueries := st.searchQueries
          ++ tcs.map fun tc => tc.function.arguments }
    simp only [moonshotLoop, ho, hc, if_neg hs, ht, hb, List.length_cons]
    exact ⟨hrec.1, by rw [hrec.2]⟩

lemma sumPromptTokens_succ (oracle : Nat → FetchOutcome OpenAIAPIResponse)
    (i : Nat) : ∀ count, sumPromptTokens oracle i (count + 1)
      = promptTokensAt oracle i + sumPromptTokens oracle (i + 1) count := by
  intro count
  induction count with
  | zero => simp [sumPromptTokens, List.range_succ]
  | succ n ihn =>
    unfold sumPromptTokens at *
    rw [List.range_succ, List.map_append, List.sum_append, ihn,
        List.range_succ, List.map_append, List.sum_append]
    simp only [List.map_cons, List.map_nil, List.sum_cons, List.sum_nil]
    have : i + (n + 1) = i + 1 + n := by omega
    rw [this]
    omega

lemma sumCompletionTokens_succ
    (oracle : Nat → FetchOutcome OpenAIAPIResponse) (i : Nat) :
    ∀ count, sumCompletionTokens oracle i (count + 1)
      = completionTokensAt oracle i
        + sumCompletionTokens oracle (i + 1) count := by
  intro count
  induction count with
  | zero => simp [sumCompletionTokens, List.range_succ]
  | succ n ihn =>
    unfold sumCompletionTokens at *
    rw [List.range_succ, List.map_append, List.sum_append, ihn,
        List.range_succ, List.map_append, List.sum_append]
    simp only [List.map_cons, List.map_nil, List.sum_cons, List.sum_nil]
    have : i + (n + 1) = i + 1 + n := by omega
    rw [this]
    omega

lemma argsConcat_succ (oracle : Nat → FetchOutcome OpenAIAPIResponse)
    (i : Nat) : ∀ count, argsConcat oracle i (count + 1)
      = toolArgsAt oracle i ++ argsConcat oracle (i + 1) count := by
  intro count
  induction count with
  | zero => simp [argsConcat, List.range_succ]
  | succ n ihn =>
    unfold argsConcat at *
    rw [List.range_succ, List.map_append, List.flatten_append,
        ihn, List.range_succ, List.map_append,
        List.flatten_append]
    simp only [List.map_cons, List.map_nil, List.flatten_cons,
               List.flatten_nil, List.append_nil, List.append_assoc]
    have : i + (n + 1) = i + 1 + n := by omega
    rw [this]

lemma moonshotLoop_stop_trace (url apiKey model : String)
    (thinking : Option ThinkingMode)
    (oracle : Nat → FetchOutcome OpenAIAPIResponse) :
    ∀ k fuel i st, (∀ j, j < k → continuesAt oracle (i + j) = true) →
      stopsAt oracle (i + k) = true → k < fuel →
      (moonshotLoop url apiKey model thinking oracle fuel i st).1
          = .ok { text := textAt oracle (i + k)
                  inputTokens := some (st.totalInputTokens
                    + sumPromptTokens oracle i (k + 1))
                  outputTokens := some (st.totalOutputTokens
                    + sumCompletionTokens oracle i (k + 1))
                  webSearchQueries :=
                    if (st.searchQueries ++ argsConcat oracle i k).length > 0
                    then some (st.searchQueries ++ argsConcat oracle i k)
                    else none }
        ∧ ((moonshotLoop url apiKey model thinking oracle fuel i st).2).length
          = k + 1 := by
  intro k
  induction k with
  | zero =>
    intro fuel i st _ hstop hk
    obtain ⟨f, rfl⟩ : ∃ f, fuel = f + 1 := ⟨fuel - 1, by omega⟩
    rw [Nat.add_zero] at hstop
    obtain ⟨d, c, ho, hc, hs⟩ := stopsAt_elim hstop
    simp only [moonshotLoop, ho, hc, if_pos hs, Nat.add_zero]
    refine ⟨?_, rfl⟩
    simp only [Except.ok.injEq, AIResponse.mk.injEq]
    refine ⟨?_, ?_, ?_, ?_⟩
    · simp [textAt, choiceAt, roundOk, ho, hc]
    · simp [sumPromptTokens, List.range_succ, promptTokensAt, roundOk, ho]
    · simp [sumCompletionTokens, List.range_succ, completionTokensAt,
            roundOk, ho]
    · simp [argsConcat]
  | succ n ihn =>
    intro fuel i st h hstop hk
    obtain ⟨f, rfl⟩ : ∃ f, fuel = f + 1 := ⟨fuel - 1, by omega⟩
    have h0 : continuesAt oracle i = true := by
      have := h 0 (Nat.succ_pos n); simpa using this
    obtain ⟨d, c, tcs, ho, hc, hf, ht⟩ := continuesAt_elim h0
    have hs : ¬c.finish_reason = "stop" := by rw [hf]; decide
    have hb : (c.finish_reason == "tool_calls") = true := by rw [hf]; decide
    have harg : i + (n + 1) = i + 1 + n := by omega
    have hrec := ihn f (i + 1)
      { apiMessages := st.apiMessages
          ++ [{ role := "assistant",
                content := c.message.content.map OpenAIContent.str,
                tool_calls := some tcs }]
          ++ toolResultMessages tcs
        totalInputTokens := st.totalInputTokens
          + ((d.usage.bind OpenAIUsage.prompt_tokens).getD 0)
        totalOutputTokens := st.totalOutputTokens
          + ((d.usage.bind OpenAIUsage.completion_tokens).getD 0)
        searchQueries := st.searchQueries
          ++ tcs.map fun tc => tc.function.arguments }
      (by intro j hj
          have := h (j + 1) (Nat.succ_lt_succ hj)
          rwa [show i + (j + 1) = i + 1 + j by omega] at this)
      (by rwa [harg] at hstop)
      (by omega)
    have hprompt : promptTokensAt oracle i
        = (d.usage.bind OpenAIUsage.prompt_tokens).getD 0 := by
      simp [promptTokensAt, roundOk, ho]
    have hcompl : completionTokensAt oracle i
        = (d.usage.bind OpenAIUsage.completion_tokens).getD 0 := by
      simp [completionTokensAt, roundOk, ho]
    have hargsAt : toolArgsAt oracle i
        = tcs.map fun tc => tc.function.arguments := by
      simp [toolArgsAt, choiceAt, roundOk, ho, hc, ht, hb]
    simp only [moonshotLoop, ho, hc, if_neg hs, ht, hb, List.length_cons]
    refine ⟨hrec.1.trans ?_, by rw [hrec.2]⟩
    simp only [Except.ok.injEq, AIResponse.mk.injEq]
    refine ⟨?_, ?_, ?_, ?_⟩
    · rw [harg]
    · rw [sumPromptTokens_succ oracle i (n + 1), hprompt]
      simp [Nat.add_assoc]
    · rw [sumCompletionTokens_succ oracle i (n + 1), hcompl]
      simp [Nat.add_assoc]
    · rw [argsConcat_succ oracle i n, hargsAt]
      simp [List.append_assoc]

lemma growsFrom_weaken {ext : List OpenAIRequestMessage}
    {L : List (List OpenAIRequestMessage)} {base : List OpenAIRequestMessage}
    (h : growsFrom (base ++ ext) L) : growsFrom base L := by
  cases L with
  | nil => trivial
  | cons m rest =>
    obtain ⟨⟨t, hm⟩, hrest⟩ := h
    exact ⟨⟨ext ++ t, by rw [hm, List.append_assoc]⟩, hrest⟩

lemma moonshotLoop_growsFrom (url apiKey model : String)
    (thinking : Option ThinkingMode)
    (oracle : Nat → FetchOutcome OpenAIAPIResponse) :
    ∀ fuel i st, ∃ msgsList,
      (moonshotLoop url apiKey model thinking oracle fuel i st).2
          = msgsList.map (moonshotRoundRequest url apiKey model thinking)
        ∧ growsFrom st.apiMessages msgsList := by
  intro fuel
  induction fuel with
  | zero => intro i st; exact ⟨[], by simp [moonshotLoop], trivial⟩
  | succ f ih =>
    intro i st
    simp only [moonshotLoop]
    cases ho : oracle i with
    | httpError s b =>
      exact ⟨[st.apiMessages], by simp [ho], ⟨[], by simp⟩, trivial⟩
    | ok d =>
      cases hc : d.choices.head? with
      | none => exact ⟨[st.apiMessages], by simp [ho, hc], ⟨[], by simp⟩, trivial⟩
      | some c =>
        by_cases hs : c.finish_reason = "stop"
        · exact ⟨[st.apiMessages], by simp [ho, hc, hs], ⟨[], by simp⟩, trivial⟩
        · cases ht : c.message.tool_calls with
          | none =>
            exact ⟨[st.apiMessages], by simp [ho, hc, if_neg hs, ht],
                   ⟨[], by simp⟩, trivial⟩
          | some tcs =>
            cases hb : c.finish_reason == "tool_calls" with
            | false =>
              exact ⟨[st.apiMessages], by simp [ho, hc, if_neg hs, ht, hb],
                     ⟨[], by simp⟩, trivial⟩
            | true =>
              obtain ⟨L, hL, hg⟩ := ih (i + 1)
                { apiMessages := st.apiMessages
                    ++ [{ role := "assistant",
                          content := c.message.content.map OpenAIContent.str,
                          tool_calls := some tcs }]
                    ++ toolResultMessages tcs
                  totalInputTokens := st.totalInputTokens
                    + ((d.usage.bind OpenAIUsage.prompt_tokens).getD 0)
                  totalOutputTokens := st.totalOutputTokens
                    + ((d.usage.bind OpenAIUsage.completion_tokens).getD 0)
                  searchQueries := st.searchQueries
                    ++ tcs.map fun tc => tc.function.arguments }
              refine ⟨st.apiMessages :: L, ?_, ⟨[], by simp⟩, ?_⟩
              · simp only [ho, hc, if_neg hs, ht, hb, List.map_cons]
                rw [hL]
              · have hg' : growsFrom (st.apiMessages
                    ++ ([{ role := "assistant",
                           content := c.message.content.map OpenAIContent.str,
                           tool_calls := some tcs }]
                        ++ toolResultMessages tcs)) L := by
                  simpa [List.append_assoc] using hg
                exact growsFrom_weaken hg'

/-- Every round request built by the loop carries max_tokens 1024. -/
lemma moonshotRoundRequest_maxTokens (url apiKey model : String)
    (thinking : Option ThinkingMode)
    (apiMessages : List OpenAIRequestMessage) :
    hasMaxTokens1024 (moonshotRoundRequest url apiKey model thinking apiMessages)
      = true := by
  cases thinking <;> rfl

lemma moonshotLoop_maxTokens (url apiKey model : String)
    (thinking : Option ThinkingMode)
    (oracle : Nat → FetchOutcome OpenAIAPIResponse) (fuel i : Nat)
    (st : MoonshotLoopState) :
    ((moonshotLoop url apiKey model thinking oracle fuel i st).2).all
      hasMaxTokens1024 = true := by
  obtain ⟨L, hL, -⟩ :=
    moonshotLoop_growsFrom url apiKey model thinking oracle fuel i st
  rw [hL]
  refine List.all_eq_true.mpr fun x hx => ?_
  obtain ⟨m, -, rfl⟩ := List.mem_map.mp hx
  exact moonshotRoundRequest_maxTokens url apiKey model thinking m

/-! Claim theorems. -/

lemma allowWebSearch_of_hasImage (options : Option GenerateResponseOptions)
    (messages : List ConversationMessage) (h : hasImage messages = true) :
    allowWebSearch options messages = false := by
  simp [allowWebSearch, h]

/-- C1: for every call to generateResponse, if no message contains an image
content part then web search is allowed exactly when options.webSearch is
true; and for every conversation containing at least one image part,
neither the tool-calling-loop path nor the server-side-search path is ever
invoked regardless of options.webSearch — formalised as: the result and the
issued requests are independent of the two search-path oracles whenever an
image is present. -/
theorem claim_C1_image_disables_search :
    (∀ (options : Option GenerateResponseOptions)
       (messages : List ConversationMessage),
        hasImage messages = false →
          (allowWebSearch options messages = true
            ↔ options.bind GenerateResponseOptions.webSearch = some true))
    ∧ (∀ (options : Option GenerateResponseOptions)
         (messages : List ConversationMessage),
          hasImage messages = true → allowWebSearch options messages = false)
    ∧ (∀ (provider apiKey model systemPrompt : String)
         (messages : List ConversationMessage)
         (options : Option GenerateResponseOptions) (env : Option String)
         (o o' : Oracles),
          hasImage messages = true → o.claude = o'.claude → o.chat = o'.chat →
            generateResponse provider apiKey model systemPrompt messages
                options env o
              = generateResponse provider apiKey model systemPrompt messages
                  options env o') := by
  refine ⟨?_, ?_, ?_⟩
  · intro options messages h
    cases hw : options.bind GenerateResponseOptions.webSearch with
    | none => simp [allowWebSearch, h, hw]
    | some b => cases b <;> simp [allowWebSearch, h, hw]
  · intro options messages h
    exact allowWebSearch_of_hasImage options messages h
  · intro provider apiKey model systemPrompt messages options env o o' h h1 h2
    obtain ⟨oc, ochat, osearch, ores⟩ := o
    obtain ⟨oc', ochat', osearch', ores'⟩ := o'
    simp only at h1 h2
    subst h1; subst h2
    have hal := allowWebSearch_of_hasImage options messages h
    simp [generateResponse, hal]

def witnessImageMessages : List ConversationMessage :=
  [{ role := .user, content := .parts [.image "image/png" "QUJD"] }]

def witnessOracles1 : Oracles where
  claude := .ok { content := [] }
  chat := .ok { choices := [] }
  moonshotSearch := fun _ => .ok { choices := [] }
  responses := .ok { id := "r1", output := [] }

def witnessOracles2 : Oracles where
  claude := .ok { content := [] }
  chat := .ok { choices := [] }
  moonshotSearch := fun _ =>
    .ok { choices := [{ finish_reason := "stop",
                        message := { content := some "other" } }] }
  responses := .ok { id := "r2", output := [.webSearchCall] }

theorem claim_C1_image_disables_search_witness :
    (hasImage [] = false
      ∧ (allowWebSearch (some { webSearch := some true }) [] = true
          ↔ (some { webSearch := some true } :
                Option GenerateResponseOptions).bind
              GenerateResponseOptions.webSearch = some true))
    ∧ (hasImage witnessImageMessages = true
        ∧ allowWebSearch (some { webSearch := some true })
            witnessImageMessages = false)
    ∧ generateResponse "moonshot" "k" "m" "s" witnessImageMessages
        (some { webSearch := some true }) none witnessOracles1
      = generateResponse "moonshot" "k" "m" "s" witnessImageMessages
          (some { webSearch := some true }) none witnessOracles2 := by
  refine ⟨⟨rfl, claim_C1_image_disables_search.1 _ _ rfl⟩,
          ⟨rfl, claim_C1_image_disables_search.2.1 _ _ rfl⟩,
          claim_C1_image_disables_search.2.2 "moonshot" "k" "m" "s"
            witnessImageMessages (some { webSearch := some true }) none
            witnessOracles1 witnessOracles2 rfl rfl rfl⟩

/-- C2: the tool-call loop makes at most 5 upstream requests; if every one
of the first 5 rounds asks to continue (finish_reason "tool_calls" with a
tool_calls list, never "stop" or an unexpected finish), the call fails with
the loop-exceeded error after exactly 5 requests; and when round 0 returns
finish_reason "stop", exactly one upstream request is made and the call
succeeds. -/
theorem claim_C2_tool_loop_bounds
    (apiKey model systemPrompt : String)
    (messages : List ConversationMessage) (thinking : Option ThinkingMode)
    (oracle : Nat → FetchOutcome OpenAIAPIResponse) :
    ((callMoonshotWithSearch apiKey model systemPrompt messages thinking
        oracle).2).length ≤ 5
    ∧ ((∀ j, j < 5 → continuesAt oracle j = true) →
        (callMoonshotWithSearch apiKey model systemPrompt messages thinking
            oracle).1 = .error .loopExceeded
        ∧ ((callMoonshotWithSearch apiKey model systemPrompt messages
              thinking oracle).2).length = 5)
    ∧ (stopsAt oracle 0 = true →
        ((callMoonshotWithSearch apiKey model systemPrompt messages thinking
            oracle).2).length = 1
        ∧ ∃ r, (callMoonshotWithSearch apiKey model systemPrompt messages
                  thinking oracle).1 = .ok r) := by
  have hurl : OPENAI_COMPATIBLE_ENDPOINTS "moonshot"
      = some "https://api.moonshot.ai/v1/chat/completions" := rfl
  refine ⟨?_, ?_, ?_⟩
  · simp only [callMoonshotWithSearch, hurl]
    exact moonshotLoop_length_le _ _ _ _ _ MAX_TOOL_ITERATIONS 0 _
  · intro h
    simp only [callMoonshotWithSearch, hurl]
    exact moonshotLoop_all_continue _ _ _ _ _ MAX_TOOL_ITERATIONS 0 _
      (by intro j hj; rw [Nat.zero_add]; exact h j hj)
  · intro h
    simp only [callMoonshotWithSearch, hurl]
    have := moonshotLoop_stop_trace
      "https://api.moonshot.ai/v1/chat/completions" apiKey model thinking
      oracle 0 MAX_TOOL_ITERATIONS 0
      { apiMessages := initialApiMessages systemPrompt messages
        totalInputTokens := 0
        totalOutputTokens := 0
        searchQueries := [] }
      (by intro j hj; omega) (by rwa [Nat.add_zero]) (by decide)
    exact ⟨this.2, _, this.1⟩

def witnessStopOracle : Nat → FetchOutcome OpenAIAPIResponse := fun _ =>
  .ok { choices := [{ finish_reason := "stop",
                      message := { content := some "hi" } }]
        usage := some { prompt_tokens := some 5, completion_tokens := some 3 } }

def witnessToolOracle : Nat → FetchOutcome OpenAIAPIResponse := fun _ =>
  .ok { choices := [{ finish_reason := "tool_calls",
                      message := { content := none,
                                   tool_calls := some
                                     [{ id := "t1",
                                        function := { name := "$web_search",
                                                      arguments := "q" } }] } }] }

theorem claim_C2_tool_loop_bounds_witness :
    ((callMoonshotWithSearch "k" "m" "s" [] none witnessStopOracle).2).length
        = 1
    ∧ (∃ r, (callMoonshotWithSearch "k" "m" "s" [] none
               witnessStopOracle).1 = .ok r)
    ∧ (callMoonshotWithSearch "k" "m" "s" [] none witnessToolOracle).1
        = .error .loopExceeded
    ∧ ((callMoonshotWithSearch "k" "m" "s" [] none
          witnessToolOracle).2).length = 5 := by
  have h1 := (claim_C2_tool_loop_bounds "k" "m" "s" [] none
    witnessStopOracle).2.2 rfl
  have h2 := (claim_C2_tool_loop_bounds "k" "m" "s" [] none
    witnessToolOracle).2.1 fun j _ => rfl
  exact ⟨h1.1, h1.2, h2.1, h2.2⟩

/-- C3: the image resolver fails with the IMAGE_TOO_LARGE error whenever the
caller-declared size, the server-reported size, or the downloaded byte
length exceeds the 5 MiB ceiling, checked in that order (a declared size
over the ceiling fails with zero network calls, a reported size over the
ceiling after one call, an oversized download after two), the downloaded
byte length is re-checked regardless of the declared and reported sizes,
and a success implies all three were within the ceiling. -/
theorem claim_C3_image_size_checks
    (image : ImageAttachment) (fileInfo : TelegramFileInfo)
    (download : TelegramDownload) :
    (sizeExceedsLimit image.fileSize = true →
      fetchImageForModel image fileInfo download
        = (.error "IMAGE_TOO_LARGE", 0))
    ∧ (sizeExceedsLimit image.fileSize = false →
        fileInfo.file_path.isSome = true →
        sizeExceedsLimit fileInfo.file_size = true →
        fetchImageForModel image fileInfo download
          = (.error "IMAGE_TOO_LARGE", 1))
    ∧ (sizeExceedsLimit image.fileSize = false →
        fileInfo.file_path.isSome = true →
        sizeExceedsLimit fileInfo.file_size = false →
        download.bytes.length > MAX_IMAGE_BYTES →
        fetchImageForModel image fileInfo download
          = (.error "IMAGE_TOO_LARGE", 2))
    ∧ (fileInfo.file_path.isSome = true →
        download.bytes.length > MAX_IMAGE_BYTES →
        (fetchImageForModel image fileInfo download).1
          = .error "IMAGE_TOO_LARGE")
    ∧ (∀ payload calls,
        fetchImageForModel image fileInfo download = (.ok payload, calls) →
          sizeExceedsLimit image.fileSize = false
          ∧ sizeExceedsLimit fileInfo.file_size = false
          ∧ download.bytes.length ≤ MAX_IMAGE_BYTES) := by
  refine ⟨?_, ?_, ?_, ?_, ?_⟩
  · intro h0
    simp [fetchImageForModel, h0]
  · intro h0 h1 h2
    obtain ⟨p, hp⟩ := Option.isSome_iff_exists.mp h1
    simp [fetchImageForModel, h0, hp, h2]
  · intro h0 h1 h2 h3
    obtain ⟨p, hp⟩ := Option.isSome_iff_exists.mp h1
    simp [fetchImageForModel, h0, hp, h2, h3]
  · intro h1 h3
    obtain ⟨p, hp⟩ := Option.isSome_iff_exists.mp h1
    by_cases h0 : sizeExceedsLimit image.fileSize
    · simp [fetchImageForModel, h0]
    · by_cases h2 : sizeExceedsLimit fileInfo.file_size
      · simp [fetchImageForModel, h0, hp, h2]
      · simp [fetchImageForModel, h0, hp, h2, h3]
  · intro payload calls heq
    by_cases h0 : sizeExceedsLimit image.fileSize
    · simp [fetchImageForModel, h0] at heq
    · cases hp : fileInfo.file_path with
      | none => simp [fetchImageForModel, h0, hp] at heq
      | some p =>
        by_cases h2 : sizeExceedsLimit fileInfo.file_size
        · simp [fetchImageForModel, h0, hp, h2] at heq
        · by_cases h3 : download.bytes.length > MAX_IMAGE_BYTES
          · simp [fetchImageForModel, h0, hp, h2, h3] at heq
          · exact ⟨by simpa using h0, by simpa using h2, by omega⟩

theorem claim_C3_image_size_checks_witness :
    sizeExceedsLimit (some 6000000) = true
    ∧ fetchImageForModel
        { fileId := "file1", mimeType := some "image/png",
          fileSize := some 6000000 }
        { file_path := some "photos/p.png", file_size := some 100 }
        { bytes := [1, 2, 3] }
      = (.error "IMAGE_TOO_LARGE", 0) := by
  refine ⟨by decide, ?_⟩
  exact (claim_C3_image_size_checks
    { fileId := "file1", mimeType := some "image/png",
      fileSize := some 6000000 }
    { file_path := some "photos/p.png", file_size := some 100 }
    { bytes := [1, 2, 3] }).1 (by decide)

/-- C4: on every adapter path the result text is a string (enforced by the
AIResponse type, whose text field is total), and whenever the upstream
response omits the content — empty Claude content list, empty choices or a
null message content on the chat-completions paths, a null content on a
stopping tool-loop round, or a missing/empty message output item on the
responses path — the returned text is the empty string. -/
theorem claim_C4_empty_text_fallback :
    (∀ (apiKey model systemPrompt : String)
       (messages : List ConversationMessage) (usage : Option ClaudeUsage),
        okText (callClaude apiKey model systemPrompt messages
          (.ok { content := [], usage := usage })) = some "")
    ∧ (∀ (provider apiKey model systemPrompt : String)
         (messages : List ConversationMessage)
         (thinking : Option ThinkingMode) (env : Option String)
         (d : OpenAIAPIResponse),
        (provider = "openai" ∨ provider = "moonshot" ∨ provider = "grok") →
        (d.choices = []
          ∨ ∃ c rest, d.choices = c :: rest ∧ c.message.content = none) →
        okText (callOpenAICompatible provider apiKey model systemPrompt
          messages thinking env (.ok d)) = some "")
    ∧ (∀ (apiKey model systemPrompt : String)
         (messages : List ConversationMessage)
         (thinking : Option ThinkingMode)
         (oracle : Nat → FetchOutcome OpenAIAPIResponse)
         (d : OpenAIAPIResponse) (c : OpenAIChoice),
        oracle 0 = .ok d → d.choices.head? = some c →
        c.finish_reason = "stop" → c.message.content = none →
        okText (callMoonshotWithSearch apiKey model systemPrompt messages
          thinking oracle) = some "")
    ∧ (∀ (provider apiKey model systemPrompt : String)
         (messages : List ConversationMessage) (env : Option String)
         (d : ResponsesAPIResponse),
        (provider = "openai" ∨ provider = "grok") →
        (d.output.find? ResponsesAPIOutput.isMessage = none
          ∨ d.output.find? ResponsesAPIOutput.isMessage
              = some (.message [])) →
        okText (callResponsesAPIWithSearch provider apiKey model systemPrompt
          messages env (.ok d)) = some "") := by
  refine ⟨?_, ?_, ?_, ?_⟩
  · intro apiKey model systemPrompt messages usage
    simp [okText, callClaude]
  · intro provider apiKey model systemPrompt messages thinking env d hp hd
    have hcontent :
        (d.choices.head?.bind fun c => c.message.content).getD "" = "" := by
      rcases hd with h | ⟨c, rest, hc, hnone⟩
      · simp [h]
      · simp [hc, hnone]
    rcases hp with rfl | rfl | rfl <;>
      simp [okText, callOpenAICompatible, OPENAI_COMPATIBLE_ENDPOINTS,
            hcontent]
  · intro apiKey model systemPrompt messages thinking oracle d c ho hc hs hn
    have hstop : stopsAt oracle 0 = true := by
      simp [stopsAt, choiceAt, roundOk, ho, hc, hs]
    have hurl : OPENAI_COMPATIBLE_ENDPOINTS "moonshot"
        = some "https://api.moonshot.ai/v1/chat/completions" := rfl
    have htrace := moonshotLoop_stop_trace
      "https://api.moonshot.ai/v1/chat/completions" apiKey model thinking
      oracle 0 MAX_TOOL_ITERATIONS 0
      { apiMessages := initialApiMessages systemPrompt messages
        totalInputTokens := 0
        totalOutputTokens := 0
        searchQueries := [] }
      (by intro j hj; omega) (by rwa [Nat.add_zero]) (by decide)
    simp only [callMoonshotWithSearch, hurl, okText, htrace.1]
    simp [textAt, choiceAt, roundOk, ho, hc, hn]
  · intro provider apiKey model systemPrompt messages env d hp hd
    have htext : ((d.output.find? ResponsesAPIOutput.isMessage).bind
        fun item => match item with
                    | .message content => content.head?
                    | .webSearchCall => none).getD "" = "" := by
      rcases hd with h | h <;> simp [h]
    rcases hp with rfl | rfl <;>
      simp [okText, callResponsesAPIWithSearch, RESPONSES_API_ENDPOINTS,
            htext]

def witnessStopNullOracle : Nat → FetchOutcome OpenAIAPIResponse := fun _ =>
  .ok { choices := [{ finish_reason := "stop",
                      message := { content := none } }] }

theorem claim_C4_empty_text_fallback_witness :
    okText (callClaude "k" "m" "s" [] (.ok { content := [] })) = some ""
    ∧ okText (callOpenAICompatible "moonshot" "k" "m" "s" [] none none
        (.ok { choices := [] })) = some ""
    ∧ okText (callMoonshotWithSearch "k" "m" "s" [] none
        witnessStopNullOracle) = some ""
    ∧ okText (callResponsesAPIWithSearch "grok" "k" "m" "s" [] none
        (.ok { id := "x", output := [] })) = some "" := by
  refine ⟨claim_C4_empty_text_fallback.1 "k" "m" "s" [] none, ?_, ?_, ?_⟩
  · exact claim_C4_empty_text_fallback.2.1 "moonshot" "k" "m" "s" [] none
      none { choices := [] } (Or.inr (Or.inl rfl)) (Or.inl rfl)
  · exact claim_C4_empty_text_fallback.2.2.1 "k" "m" "s" [] none
      witnessStopNullOracle _ _ rfl rfl rfl rfl
  · exact claim_C4_empty_text_fallback.2.2.2 "grok" "k" "m" "s" [] none
      { id := "x", output := [] } (Or.inr rfl) (Or.inl rfl)

def claim_C5_cex_oracle : Nat → FetchOutcome OpenAIAPIResponse := fun _ =>
  .ok { choices := [{ finish_reason := "stop",
                      message := { content := some "hi" } }] }

/-- C5 counterexample: on the tool-call-loop path a round that omits usage
accounting entirely still yields a result whose inputTokens and
outputTokens are present (some 0), refuting the claim that on every path
the token fields are absent when the upstream response omits usage. -/
theorem claim_C5_token_counts_cex :
    (callMoonshotWithSearch "k" "m" "s" [] none claim_C5_cex_oracle).1
      = .ok { text := "hi", inputTokens := some 0, outputTokens := some 0,
              webSearchQueries := none } := rfl

/-- C5 amended: on the single-request paths (message-API, plain
chat-completions, responses-API) the token fields are absent when the
upstream response omits usage accounting; on the tool-call-loop path the
token fields are always present and equal the sums of the corresponding
usage fields across all rounds of that call, counting a round with omitted
usage as 0. -/
theorem claim_C5_token_counts_amended :
    (∀ (apiKey model systemPrompt : String)
       (messages : List ConversationMessage)
       (cs : List ClaudeContentBlock),
        okTokens (callClaude apiKey model systemPrompt messages
          (.ok { content := cs, usage := none })) = some (none, none))
    ∧ (∀ (provider apiKey model systemPrompt : String)
         (messages : List ConversationMessage)
         (thinking : Option ThinkingMode) (env : Option String)
         (d : OpenAIAPIResponse),
        (provider = "openai" ∨ provider = "moonshot" ∨ provider = "grok") →
        d.usage = none →
        okTokens (callOpenAICompatible provider apiKey model systemPrompt
          messages thinking env (.ok d)) = some (none, none))
    ∧ (∀ (provider apiKey model systemPrompt : String)
         (messages : List ConversationMessage) (env : Option String)
         (d : ResponsesAPIResponse),
        (provider = "openai" ∨ provider = "grok") → d.usage = none →
        okTokens (callResponsesAPIWithSearch provider apiKey model
          systemPrompt messages env (.ok d)) = some (none, none))
    ∧ (∀ (apiKey model systemPrompt : String)
         (messages : List ConversationMessage)
         (thinking : Option ThinkingMode)
         (oracle : Nat → FetchOutcome OpenAIAPIResponse) (k : Nat),
        (∀ j, j < k → continuesAt oracle j = true) →
        stopsAt oracle k = true → k < 5 →
        okTokens (callMoonshotWithSearch apiKey model systemPrompt messages
            thinking oracle)
          = some (some (sumPromptTokens oracle 0 (k + 1)),
                  some (sumCompletionTokens oracle 0 (k + 1)))) := by
  refine ⟨?_, ?_, ?_, ?_⟩
  · intro apiKey model systemPrompt messages cs
    simp [okTokens, callClaude]
  · intro provider apiKey model systemPrompt messages thinking env d hp hu
    rcases hp with rfl | rfl | rfl <;>
      simp [okTokens, callOpenAICompatible, OPENAI_COMPATIBLE_ENDPOINTS, hu]
  · intro provider apiKey model systemPrompt messages env d hp hu
    rcases hp with rfl | rfl <;>
      simp [okTokens, callResponsesAPIWithSearch, RESPONSES_API_ENDPOINTS,
            hu]
  · intro apiKey model systemPrompt messages thinking oracle k h hstop hk
    have hurl : OPENAI_COMPATIBLE_ENDPOINTS "moonshot"
        = some "https://api.moonshot.ai/v1/chat/completions" := rfl
    have htrace := moonshotLoop_stop_trace
      "https://api.moonshot.ai/v1/chat/completions" apiKey model thinking
      oracle k MAX_TOOL_ITERATIONS 0
      { apiMessages := initialApiMessages systemPrompt messages
        totalInputTokens := 0
        totalOutputTokens := 0
        searchQueries := [] }
      (by intro j hj; rw [Nat.zero_add]; exact h j hj)
      (by rwa [Nat.zero_add])
      (by simpa [MAX_TOOL_ITERATIONS] using hk)
    simp only [callMoonshotWithSearch, hurl, okTokens, htrace.1]
    simp

def witnessTwoRoundOracle : Nat → FetchOutcome OpenAIAPIResponse := fun i =>
  if i = 0 then
    .ok { choices := [{ finish_reason := "tool_calls",
                        message := { content := none,
                                     tool_calls := some
                                       [{ id := "t1",
                                          function := { name := "$web_search",
                                                        arguments := "q1" } }] } }]
          usage := some { prompt_tokens := some 10,
                          completion_tokens := some 2 } }
  else
    .ok { choices := [{ finish_reason := "stop",
                        message := { content := some "Found it." } }]
          usage := some { prompt_tokens := some 7,
                          completion_tokens := some 4 } }

theorem claim_C5_token_counts_amended_witness :
    okTokens (callClaude "k" "m" "s" [] (.ok { content := [] }))
        = some (none, none)
    ∧ okTokens (callOpenAICompatible "grok" "k" "m" "s" [] none none
        (.ok { choices := [] })) = some (none, none)
    ∧ okTokens (callResponsesAPIWithSearch "openai" "k" "m" "s" [] none
        (.ok { id := "x", output := [] })) = some (none, none)
    ∧ okTokens (callMoonshotWithSearch "k" "m" "s" [] none
        witnessTwoRoundOracle) = some (some 17, some 6) := by
  refine ⟨claim_C5_token_counts_amended.1 "k" "m" "s" [] [], ?_, ?_, ?_⟩
  · exact claim_C5_token_counts_amended.2.1 "grok" "k" "m" "s" [] none none
      { choices := [] } (Or.inr (Or.inr rfl)) rfl
  · exact claim_C5_token_counts_amended.2.2.1 "openai" "k" "m" "s" [] none
      { id := "x", output := [] } (Or.inl rfl) rfl
  · have := claim_C5_token_counts_amended.2.2.2 "k" "m" "s" [] none
      witnessTwoRoundOracle 1
      (by intro j hj
          interval_cases j
          · rfl)
      rfl (by decide)
    exact this.trans (by decide)

/-- C6: webSearchQueries is present exactly when at least one search call
executed: on the responses path it is present iff the output holds at least
one web_search_call item and then equals the single synthetic string
listing that count; on the tool-calling path (terminating with "stop" after
k continuing rounds) it is present iff at least one tool-call argument was
recorded and then holds the raw argument strings, one entry per tool call
across all rounds in order. -/
theorem claim_C6_search_queries :
    (∀ (provider apiKey model systemPrompt : String)
       (messages : List ConversationMessage) (env : Option String)
       (d : ResponsesAPIResponse),
      (provider = "openai" ∨ provider = "grok") →
      okQueries (callResponsesAPIWithSearch provider apiKey model
          systemPrompt messages env (.ok d))
        = some (if (d.output.filter ResponsesAPIOutput.isWebSearchCall).length
                    > 0
                then some ["web_search ("
                  ++ toString
                    (d.output.filter ResponsesAPIOutput.isWebSearchCall).length
                  ++ " call(s))"]
                else none))
    ∧ (∀ (apiKey model systemPrompt : String)
         (messages : List ConversationMessage)
         (thinking : Option ThinkingMode)
         (oracle : Nat → FetchOutcome OpenAIAPIResponse) (k : Nat),
        (∀ j, j < k → continuesAt oracle j = true) →
        stopsAt oracle k = true → k < 5 →
        okQueries (callMoonshotWithSearch apiKey model systemPrompt messages
            thinking oracle)
          = some (if (argsConcat oracle 0 k).length > 0
                  then some (argsConcat oracle 0 k)
                  else none)) := by
  refine ⟨?_, ?_⟩
  · intro provider apiKey model systemPrompt messages env d hp
    rcases hp with rfl | rfl <;>
      simp [okQueries, callResponsesAPIWithSearch, RESPONSES_API_ENDPOINTS]
  · intro apiKey model systemPrompt messages thinking oracle k h hstop hk
    have hurl : OPENAI_COMPATIBLE_ENDPOINTS "moonshot"
        = some "https://api.moonshot.ai/v1/chat/completions" := rfl
    have htrace := moonshotLoop_stop_trace
      "https://api.moonshot.ai/v1/chat/completions" apiKey model thinking
      oracle k MAX_TOOL_ITERATIONS 0
      { apiMessages := initialApiMessages systemPrompt messages
        totalInputTokens := 0
        totalOutputTokens := 0
        searchQueries := [] }
      (by intro j hj; rw [Nat.zero_add]; exact h j hj)
      (by rwa [Nat.zero_add])
      (by simpa [MAX_TOOL_ITERATIONS] using hk)
    simp only [callMoonshotWithSearch, hurl, okQueries, htrace.1]
    simp

theorem claim_C6_search_queries_witness :
    okQueries (callResponsesAPIWithSearch "grok" "k" "m" "s" [] none
        (.ok { id := "x",
               output := [.webSearchCall, .message ["hello"],
                          .webSearchCall] }))
      = some (some ["web_search (2 call(s))"])
    ∧ okQueries (callResponsesAPIWithSearch "grok" "k" "m" "s" [] none
        (.ok { id := "x", output := [.message ["hello"]] })) = some none
    ∧ okQueries (callMoonshotWithSearch "k" "m" "s" [] none
        witnessTwoRoundOracle) = some (some ["q1"])
    ∧ okQueries (callMoonshotWithSearch "k" "m" "s" [] none
        witnessStopOracle) = some none := by
  refine ⟨?_, ?_, ?_, ?_⟩
  · exact (claim_C6_search_queries.1 "grok" "k" "m" "s" [] none
      { id := "x",
        output := [.webSearchCall, .message ["hello"], .webSearchCall] }
      (Or.inr rfl)).trans (by decide)
  · exact (claim_C6_search_queries.1 "grok" "k" "m" "s" [] none
      { id := "x", output := [.message ["hello"]] }
      (Or.inr rfl)).trans (by decide)
  · exact (claim_C6_search_queries.2 "k" "m" "s" [] none
      witnessTwoRoundOracle 1
      (by intro j hj
          interval_cases j
          · rfl)
      rfl (by decide)).trans (by decide)
  · exact (claim_C6_search_queries.2 "k" "m" "s" [] none
      witnessStopOracle 0 (by intro j hj; omega) rfl
      (by decide)).trans (by decide)

/-- C7 counterexample: the responses-API adapter issues a request whose body
has no max_tokens field at all, refuting the claim that every adapter
request body includes max_tokens 1024. -/
theorem claim_C7_max_tokens_cex :
    ((callResponsesAPIWithSearch "grok" "key" "mdl" "sys" [] none
        (.ok { id := "r", output := [] })).2.map
      fun r => Json.lookup r.body "max_tokens") = [none] := rfl

/-- C7 amended: the message-API, plain chat-completions and tool-call-loop
adapters include max_tokens 1024 in every request body they issue, while
the responses-API adapter issues bodies with no max_tokens field. -/
theorem claim_C7_max_tokens_amended
    (provider apiKey model systemPrompt : String)
    (messages : List ConversationMessage) (thinking : Option ThinkingMode)
    (env : Option String) (uc : FetchOutcome ClaudeAPIResponse)
    (uo : FetchOutcome OpenAIAPIResponse)
    (oracle : Nat → FetchOutcome OpenAIAPIResponse)
    (ur : FetchOutcome ResponsesAPIResponse) :
    ((callClaude apiKey model systemPrompt messages uc).2).all
        hasMaxTokens1024 = true
    ∧ ((callOpenAICompatible provider apiKey model systemPrompt messages
          thinking env uo).2).all hasMaxTokens1024 = true
    ∧ ((callMoonshotWithSearch apiKey model systemPrompt messages thinking
          oracle).2).all hasMaxTokens1024 = true
    ∧ ((callResponsesAPIWithSearch provider apiKey model systemPrompt
          messages env ur).2).all
        (fun r => (Json.lookup r.body "max_tokens").isNone) = true := by
  refine ⟨?_, ?_, ?_, ?_⟩
  · cases uc <;> rfl
  · by_cases hp : provider = "openai"
    · subst hp; cases uo <;> rfl
    · cases he : OPENAI_COMPATIBLE_ENDPOINTS provider with
      | none => simp [callOpenAICompatible, hp, he]
      | some url =>
        cases uo <;> simp [callOpenAICompatible, hp, he] <;>
          exact moonshotRoundRequest_maxTokens url apiKey model thinking []
            |>.symm ▸ rfl
  · have hurl : OPENAI_COMPATIBLE_ENDPOINTS "moonshot"
        = some "https://api.moonshot.ai/v1/chat/completions" := rfl
    simp only [callMoonshotWithSearch, hurl]
    exact moonshotLoop_maxTokens _ _ _ _ _ _ _ _
  · by_cases hp : provider = "openai"
    · subst hp; cases ur <;> rfl
    · cases he : RESPONSES_API_ENDPOINTS provider with
      | none => simp [callResponsesAPIWithSearch, hp, he]
      | some url =>
        cases ur <;> simp [callResponsesAPIWithSearch, hp, he] <;> rfl

/-- C8 counterexample: for provider "openai" the gateway reads the
OPENAI_BASE_URL ambient configuration: two generateResponse calls with
identical explicit arguments issue requests with different URLs under
different environments. -/
theorem claim_C8_env_independence_cex :
    ((generateResponse "openai" "k" "m" "s" [] none none
        witnessOracles1).2.map Request.url
      = ["https://api.openai.com/v1/chat/completions"])
    ∧ ((generateResponse "openai" "k" "m" "s" [] none
          (some "https://example.com/v1") witnessOracles1).2.map Request.url
      = ["https://example.com/v1/chat/completions"])
    ∧ (generateResponse "openai" "k" "m" "s" [] none none
          witnessOracles1).2.map Request.url
      ≠ (generateResponse "openai" "k" "m" "s" [] none
          (some "https://example.com/v1") witnessOracles1).2.map
          Request.url := by
  refine ⟨rfl, rfl, by decide⟩

/-- C8 amended: for every provider other than "openai", generateResponse
reads no ambient configuration: the result and the issued requests (URLs,
headers and bodies) are identical under any two values of the
OPENAI_BASE_URL environment variable; for provider "openai" the base URL
is taken from that variable (falling back to the fixed default). -/
theorem claim_C8_env_independence_amended
    (provider apiKey model systemPrompt : String)
    (messages : List ConversationMessage)
    (options : Option GenerateResponseOptions)
    (env env' : Option String) (oracles : Oracles)
    (h : provider ≠ "openai") :
    generateResponse provider apiKey model systemPrompt messages options
        env oracles
      = generateResponse provider apiKey model systemPrompt messages options
          env' oracles := by
  have hchat : ∀ u, callOpenAICompatible provider apiKey model systemPrompt
      messages (options.bind GenerateResponseOptions.thinking) env u
      = callOpenAICompatible provider apiKey model systemPrompt messages
          (options.bind GenerateResponseOptions.thinking) env' u := by
    intro u
    simp [callOpenAICompatible, h]
  have hresp : ∀ u, callResponsesAPIWithSearch provider apiKey model
      systemPrompt messages env u
      = callResponsesAPIWithSearch provider apiKey model systemPrompt
          messages env' u := by
    intro u
    simp [callResponsesAPIWithSearch, h]
  simp only [generateResponse]
  split
  · rfl
  · split
    · rfl
    · exact hchat oracles.chat
  · split
    · exact hresp oracles.responses
    · exact hchat oracles.chat
  · split
    · exact hresp oracles.responses
    · exact hchat oracles.chat
  · rfl

theorem claim_C8_env_independence_amended_witness :
    generateResponse "moonshot" "k" "m" "s" [] none none witnessOracles1
      = generateResponse "moonshot" "k" "m" "s" [] none
          (some "https://example.com/v1") witnessOracles1 :=
  claim_C8_env_independence_amended "moonshot" "k" "m" "s" [] none none
    (some "https://example.com/v1") witnessOracles1 (by decide)

/-- C9: the adapters never mutate the supplied conversation: the tool-call
loop starts from a separately constructed message list (the system message
followed by fresh converted copies of each supplied message, built by map)
and each round's request extends the previous round's message list by
appending only, so the converted prefix — and a fortiori the caller's
list, which is only read through map — is never altered. -/
theorem claim_C9_messages_not_mutated
    (apiKey model systemPrompt : String)
    (messages : List ConversationMessage) (thinking : Option ThinkingMode)
    (oracle : Nat → FetchOutcome OpenAIAPIResponse) :
    initialApiMessages systemPrompt messages
      = { role := "system", content := some (.str systemPrompt) }
        :: messages.map (fun m =>
            { role := m.role.toStr,
              content := some (toOpenAIContent m.content) })
    ∧ ∃ msgsList,
        (callMoonshotWithSearch apiKey model systemPrompt messages thinking
            oracle).2
          = msgsList.map (moonshotRoundRequest
              "https://api.moonshot.ai/v1/chat/completions" apiKey model
              thinking)
        ∧ growsFrom (initialApiMessages systemPrompt messages) msgsList := by
  refine ⟨rfl, ?_⟩
  have hurl : OPENAI_COMPATIBLE_ENDPOINTS "moonshot"
      = some "https://api.moonshot.ai/v1/chat/completions" := rfl
  simp only [callMoonshotWithSearch, hurl]
  exact moonshotLoop_growsFrom _ _ _ _ _ _ _ _

lemma moonshotLoop_noChoices (url apiKey model : String)
    (thinking : Option ThinkingMode)
    (oracle : Nat → FetchOutcome OpenAIAPIResponse) (fuel i : Nat)
    (st : MoonshotLoopState) (d : OpenAIAPIResponse)
    (hfuel : fuel ≠ 0) (ho : oracle i = .ok d)
    (hc : d.choices.head? = none) :
    (moonshotLoop url apiKey model thinking oracle fuel i st).1
      = .error .noChoices := by
  obtain ⟨f, rfl⟩ : ∃ f, fuel = f + 1 := ⟨fuel - 1, by omega⟩
  simp [moonshotLoop, ho, hc]

/-- C10: on an upstream chat-completions response with an empty choices
list the two chat-completions paths diverge: the plain adapter returns a
result with empty text (and pass-through usage), while the tool-call loop
fails with the no-choices error. -/
theorem claim_C10_empty_choices_divergence
    (apiKey model systemPrompt : String)
    (messages : List ConversationMessage) (thinking : Option ThinkingMode)
    (env : Option String) (usage : Option OpenAIUsage) :
    (callOpenAICompatible "moonshot" apiKey model systemPrompt messages
        thinking env (.ok { choices := [], usage := usage })).1
      = .ok { text := ""
              inputTokens := usage.bind OpenAIUsage.prompt_tokens
              outputTokens := usage.bind OpenAIUsage.completion_tokens }
    ∧ (callMoonshotWithSearch apiKey model systemPrompt messages thinking
        (fun _ => .ok { choices := [], usage := usage })).1
      = .error .noChoices := by
  constructor
  · simp [callOpenAICompatible, OPENAI_COMPATIBLE_ENDPOINTS]
  · have hurl : OPENAI_COMPATIBLE_ENDPOINTS "moonshot"
        = some "https://api.moonshot.ai/v1/chat/completions" := rfl
    simp only [callMoonshotWithSearch, hurl]
    exact moonshotLoop_noChoices _ _ _ _ _ _ _ _ _ (by decide) rfl rfl

end Nerdbot
